import Mathlib

/-!
# Verification of the stella-bot generation-orchestration core

This development gives a shallow embedding of the generation-orchestration
and progress-streaming subsystem of the stella-bot repository and proves
(or refutes) the claims of its specification against that embedding.

Embedded components (file of origin in the repository):
* the dynamic timeout estimator (`calculateTimeout` in `local-ai.ts`);
* the health-probe cache (`checkServiceWithCache` in `model-selector.ts`);
* the cancellation client (`cancelTask` in `progress-monitor.ts`);
* the n8n response normalizer (`generateImage` in `n8n.ts`);
* the WebSocket progress monitor (`TaskProgressMonitor` in
  `progress-monitor.ts`);
* the pending-wait table (`taskResolvers` / `resolveTask` / `rejectTask`
  in `local-ai.ts`);
* the progress-percentage rendering of the two slash commands
  (`imagine-pro.ts` and `command-progress-handler.ts`);
* the backend-routing control flow of `imagine-pro.ts` and `imagine.ts`.

JavaScript numbers are modelled as rationals (`ℚ`), timestamps as
integers (milliseconds), and fallible network interactions as explicit
outcome parameters.
-/

namespace StellaBot

/-! ## Timeout estimator (`calculateTimeout`, local-ai.ts)

The estimator works in milliseconds; the configuration values come from
`config.ts` in seconds and are multiplied by 1000 (`BASE_TIMEOUT`,
`TIMEOUT_PER_STEP`, `TIMEOUT_PER_MEGAPIXEL`, `TIMEOUT_HIGH_CFG_PENALTY`,
`MAX_TIMEOUT` in local-ai.ts). -/

/-- Timeout configuration constants, in milliseconds
(`config.AI_TIMEOUT_* * 1000` in local-ai.ts). -/
structure TimeoutConfig where
  baseTimeout : ℚ
  perStep : ℚ
  perMegapixel : ℚ
  highCfgPenalty : ℚ
  maxTimeout : ℚ
deriving DecidableEq

/-- The default configuration from `config.ts` (zod schema defaults):
base 1800 s, 20 s per step, 90 s per megapixel, 45 s per CFG point
above 10, maximum 7200 s; converted to milliseconds. -/
def defaultTimeoutConfig : TimeoutConfig :=
  { baseTimeout := 1800 * 1000
    perStep := 20 * 1000
    perMegapixel := 90 * 1000
    highCfgPenalty := 45 * 1000
    maxTimeout := 7200 * 1000 }

/-- Result of `calculateTimeout`: the clamped timeout in milliseconds and
whether the maximum was applied (the `breakdown` log string is omitted). -/
structure TimeoutResult where
  timeout : ℚ
  wasLimited : Bool
deriving DecidableEq

/-- Shallow embedding of `calculateTimeout(steps, width, height, cfgScale)`
from local-ai.ts: base, plus `steps * TIMEOUT_PER_STEP`, plus
`(megapixels - 1) * TIMEOUT_PER_MEGAPIXEL` when the resolution exceeds one
megapixel, plus `(cfgScale - 10) * TIMEOUT_HIGH_CFG_PENALTY` when the CFG
scale exceeds 10; the sum is clamped with `Math.min` to `MAX_TIMEOUT` and
`wasLimited` is `finalTimeout < calculatedTimeout`. No input validation is
performed, exactly as in the source. -/
def calculateTimeout (c : TimeoutConfig) (steps width height cfgScale : ℚ) :
    TimeoutResult :=
  let stepIncrement := steps * c.perStep
  let megapixels := width * height / (1024 * 1024)
  let resolutionIncrement := if megapixels > 1 then (megapixels - 1) * c.perMegapixel else 0
  let cfgIncrement := if cfgScale > 10 then (cfgScale - 10) * c.highCfgPenalty else 0
  let calculatedTimeout := c.baseTimeout + stepIncrement + resolutionIncrement + cfgIncrement
  let finalTimeout := min calculatedTimeout c.maxTimeout
  { timeout := finalTimeout
    wasLimited := decide (finalTimeout < calculatedTimeout) }

/-- The pre-clamp sum computed by `calculateTimeout` (spelled out for the
statements below; definitionally equal to the accumulated value in the
source). -/
def unclampedTimeout (c : TimeoutConfig) (steps width height cfgScale : ℚ) : ℚ :=
  c.baseTimeout + steps * c.perStep
    + (if width * height / (1024 * 1024) > 1 then
        (width * height / (1024 * 1024) - 1) * c.perMegapixel else 0)
    + (if cfgScale > 10 then (cfgScale - 10) * c.highCfgPenalty else 0)

lemma calculateTimeout_timeout (c : TimeoutConfig) (steps width height cfgScale : ℚ) :
    (calculateTimeout c steps width height cfgScale).timeout
      = min (unclampedTimeout c steps width height cfgScale) c.maxTimeout := rfl

lemma calculateTimeout_wasLimited (c : TimeoutConfig) (steps width height cfgScale : ℚ) :
    (calculateTimeout c steps width height cfgScale).wasLimited
      = decide (min (unclampedTimeout c steps width height cfgScale) c.maxTimeout
          < unclampedTimeout c steps width height cfgScale) := rfl

/-- C1: for every steps, width, height and guidance scale, the estimator
returns the minimum of the unclamped sum (base, plus steps times the
per-step increment, plus the above-one-megapixel penalty, plus the
above-10 guidance penalty) and the configured maximum; it reports clamping
exactly when the unclamped sum exceeds the maximum; and
`estimate(20, 1024, 1024, 7.5)` with the default configuration
(base 1800 s, 20 s/step, 90 s/MP, 45 s per CFG point above 10) yields
2200 s = 2200000 ms, unclamped. -/
theorem calculateTimeout_spec :
    (∀ (c : TimeoutConfig) (steps width height cfgScale : ℚ),
      (calculateTimeout c steps width height cfgScale).timeout
        = min (unclampedTimeout c steps width height cfgScale) c.maxTimeout) ∧
    (∀ (c : TimeoutConfig) (steps width height cfgScale : ℚ),
      (calculateTimeout c steps width height cfgScale).wasLimited = true
        ↔ c.maxTimeout < unclampedTimeout c steps width height cfgScale) ∧
    ((calculateTimeout defaultTimeoutConfig 20 1024 1024 (15/2)).timeout = 2200000 ∧
      (calculateTimeout defaultTimeoutConfig 20 1024 1024 (15/2)).wasLimited = false) := by
  refine ⟨calculateTimeout_timeout, fun c steps width height cfgScale => ?_, ?_, ?_⟩
  · rw [calculateTimeout_wasLimited, decide_eq_true_eq, min_lt_iff]
    simp [lt_self_iff_false]
  · rw [calculateTimeout_timeout]
    simp only [unclampedTimeout, defaultTimeoutConfig, min_def]
    norm_num
  · rw [calculateTimeout_wasLimited, decide_eq_false_iff_not, not_lt]
    simp only [unclampedTimeout, defaultTimeoutConfig, min_def]
    norm_num

/-- C9 counterexample: an invalid (negative) steps value does not
contribute zero; `calculateTimeout(-5, 1024, 1024, 7.5)` with the default
configuration yields 1700 s, i.e. 100 s less than the 1800 s obtained with
zero steps, so the negative input flowed into the result instead of being
treated as zero contribution. -/
theorem calculateTimeout_negative_not_zeroed :
    (calculateTimeout defaultTimeoutConfig (-5) 1024 1024 (15/2)).timeout = 1700000 ∧
    (calculateTimeout defaultTimeoutConfig 0 1024 1024 (15/2)).timeout = 1800000 := by
  constructor <;>
    · rw [calculateTimeout_timeout]
      simp only [unclampedTimeout, defaultTimeoutConfig, min_def]
      norm_num

/-- C9 amended: the estimator is a pure total function of its inputs, but
it performs no input validation: a negative steps value feeds directly
into the arithmetic and strictly lowers the timeout (whenever the
per-step increment is positive and the zero-steps estimate is unclamped),
rather than contributing zero. (In the JavaScript source a NaN input
likewise propagates through `Math.min` into the returned timeout.) -/
theorem calculateTimeout_no_validation (c : TimeoutConfig)
    (steps width height cfgScale : ℚ)
    (hneg : steps < 0) (hper : 0 < c.perStep)
    (hnoclamp : (calculateTimeout c 0 width height cfgScale).wasLimited = false) :
    (calculateTimeout c steps width height cfgScale).timeout
      < (calculateTimeout c 0 width height cfgScale).timeout := by
  rw [calculateTimeout_wasLimited, decide_eq_false_iff_not, not_lt] at hnoclamp
  rw [calculateTimeout_timeout, calculateTimeout_timeout]
  have hS0max : unclampedTimeout c 0 width height cfgScale ≤ c.maxTimeout :=
    le_trans hnoclamp (min_le_right _ _)
  have hdiff : unclampedTimeout c steps width height cfgScale
      = unclampedTimeout c 0 width height cfgScale + steps * c.perStep := by
    unfold unclampedTimeout; ring
  have hmul : steps * c.perStep < 0 := mul_neg_of_neg_of_pos hneg hper
  have hlt : unclampedTimeout c steps width height cfgScale
      < unclampedTimeout c 0 width height cfgScale := by
    rw [hdiff]; linarith
  rw [min_eq_left (le_trans hlt.le hS0max), min_eq_left hS0max]
  exact hlt

/-- Witness for `calculateTimeout_no_validation` at the default
configuration with steps = -5. -/
theorem calculateTimeout_no_validation_witness :
    (calculateTimeout defaultTimeoutConfig (-5) 1024 1024 (15/2)).timeout
      < (calculateTimeout defaultTimeoutConfig 0 1024 1024 (15/2)).timeout :=
  calculateTimeout_no_validation defaultTimeoutConfig (-5) 1024 1024 (15/2)
    (by norm_num) (by norm_num [defaultTimeoutConfig])
    (by rw [calculateTimeout_wasLimited, decide_eq_false_iff_not, not_lt]
        simp only [unclampedTimeout, defaultTimeoutConfig, min_def]
        norm_num)

/-! ## Health-probe cache (`checkServiceWithCache`, model-selector.ts)

The cache entry and the two interval constants come straight from the
source (`serviceStatusCache`, `CACHE_TTL = 30 * 1000`,
`MIN_CHECK_INTERVAL = 5 * 1000`). A probe attempt is modelled as an
`Option Bool` argument: `some b` means `checkFn()` resolved to `b`,
`none` means it threw. -/

/-- The `ServiceStatusCache` entry from model-selector.ts: last known
online flag and the two timestamps (milliseconds). -/
structure ServiceStatusCache where
  isOnline : Bool
  timestamp : ℤ
  lastCheck : ℤ
deriving DecidableEq

/-- Constant `CACHE_TTL = 30 * 1000` (model-selector.ts). -/
def CACHE_TTL : ℤ := 30 * 1000

/-- Constant `MIN_CHECK_INTERVAL = 5 * 1000` (model-selector.ts). -/
def MIN_CHECK_INTERVAL : ℤ := 5 * 1000

/-- Outcome of one `checkServiceWithCache` call: the boolean returned to
the caller, the cache entry for the key afterwards, and whether
`checkFn()` was invoked. -/
structure HealthCheckOutcome where
  result : Bool
  newCache : Option ServiceStatusCache
  probed : Bool
deriving DecidableEq

/-- Shallow embedding of `checkServiceWithCache(serviceKey, checkFn)` from
model-selector.ts for one key: `cached` is the entry currently stored for
the key, `now` is `Date.now()`, and `probe` is the outcome of `checkFn()`
(`none` = it threw). The two early-return branches (fresh cache within the
minimum interval; expired cache but still within the minimum interval)
return the cached flag without probing; otherwise the probe runs,
updating the cache on success, and on a throw the last known value is
returned (or `false` when no entry exists). -/
def checkServiceWithCache (cached : Option ServiceStatusCache) (now : ℤ)
    (probe : Option Bool) : HealthCheckOutcome :=
  match cached with
  | some c =>
    if now - c.timestamp < CACHE_TTL ∧ now - c.lastCheck < MIN_CHECK_INTERVAL then
      { result := c.isOnline, newCache := some c, probed := false }
    else if now - c.lastCheck < MIN_CHECK_INTERVAL then
      { result := c.isOnline, newCache := some c, probed := false }
    else
      match probe with
      | some b => { result := b, newCache := some ⟨b, now, now⟩, probed := true }
      | none => { result := c.isOnline, newCache := some c, probed := true }
  | none =>
    match probe with
    | some b => { result := b, newCache := some ⟨b, now, now⟩, probed := true }
    | none => { result := false, newCache := none, probed := true }

/-- C8: (i) any call within the minimum re-check interval of the last check of an entry returns the cached boolean without re-probing, even when the
TTL has expired; (ii) hence two calls within the minimum interval of each
other return the same boolean and the second never probes, regardless of
what a probe would have reported; (iii) when the probe throws while an
entry exists the last known value of the entry is returned; (iv) with no prior
entry a throwing probe yields `false`. -/
theorem checkServiceWithCache_spec :
    (∀ (c : ServiceStatusCache) (now : ℤ) (probe : Option Bool),
      now - c.lastCheck < MIN_CHECK_INTERVAL →
      checkServiceWithCache (some c) now probe
        = { result := c.isOnline, newCache := some c, probed := false }) ∧
    (∀ (t₀ t₁ : ℤ) (b : Bool) (p₁ : Option Bool),
      t₁ - t₀ < MIN_CHECK_INTERVAL →
      checkServiceWithCache ((checkServiceWithCache none t₀ (some b)).newCache) t₁ p₁
        = { result := b, newCache := some ⟨b, t₀, t₀⟩, probed := false }) ∧
    (∀ (c : ServiceStatusCache) (now : ℤ),
      (checkServiceWithCache (some c) now none).result = c.isOnline) ∧
    (∀ (now : ℤ), (checkServiceWithCache none now none).result = false) := by
  have key : ∀ (c : ServiceStatusCache) (now : ℤ) (probe : Option Bool),
      now - c.lastCheck < MIN_CHECK_INTERVAL →
      checkServiceWithCache (some c) now probe
        = { result := c.isOnline, newCache := some c, probed := false } := by
    intro c now probe h
    simp only [checkServiceWithCache]
    rw [if_pos h]
    split
    · rfl
    · rfl
  refine ⟨key, ?_, ?_, fun now => rfl⟩
  · intro t₀ t₁ b p₁ h
    exact key ⟨b, t₀, t₀⟩ t₁ p₁ h
  · intro c now
    simp only [checkServiceWithCache]
    split
    · rfl
    · split
      · rfl
      · rfl

/-- Witness for `checkServiceWithCache_spec`: an entry last checked at
time 0 is returned unchanged, without probing, at time 3000 ms, even
though a probe (which would have reported offline) was available. -/
theorem checkServiceWithCache_spec_witness :
    checkServiceWithCache (some ⟨true, 0, 0⟩) 3000 (some false)
      = { result := true, newCache := some ⟨true, 0, 0⟩, probed := false } :=
  checkServiceWithCache_spec.1 ⟨true, 0, 0⟩ 3000 (some false) (by norm_num [MIN_CHECK_INTERVAL])

/-! ## Cancellation client (`cancelTask`, progress-monitor.ts)

`cancelTask(baseUrl, taskId)` issues a primary `DELETE /task/{id}` and, if
that does not indicate success, a fallback `POST /task/{id}/cancel`. Each
HTTP interaction is modelled as a `FetchOutcome`: the fetch either throws
(network failure — the surrounding try/catch then returns `false`) or
yields a response with an `ok` flag (2xx) and a body. The DELETE
body of the DELETE response is modelled as `none` when `response.json()` throws and
`some msg` when it parses, `msg` being the optional `message` field. -/

/-- Outcome of one fetch in `cancelTask`: the call threw, or returned a
response with `ok` status and a body (`none` = JSON parse throws;
`some msg` = parsed object with optional `message` field). -/
inductive FetchOutcome where
  | thrown : FetchOutcome
  | resp (ok : Bool) (body : Option (Option String)) : FetchOutcome
deriving DecidableEq

/-- Whether `needle` occurs at the start of `hay` (character lists). -/
def charsStartWith : List Char → List Char → Bool
  | [], _ => true
  | _ :: _, [] => false
  | a :: as, b :: bs => a == b && charsStartWith as bs

/-- Whether `needle` occurs anywhere inside `hay` (character lists);
models JavaScript `String.prototype.includes`. -/
def charsContain (needle : List Char) : List Char → Bool
  | [] => needle.isEmpty
  | b :: bs => charsStartWith needle (b :: bs) || charsContain needle bs

/-- JavaScript `hay.includes(needle)` on strings. -/
def strIncludes (needle hay : String) : Bool :=
  charsContain needle.data hay.data

/-- The test `data.message?.includes` of the string `sucesso` from
progress-monitor.ts. -/
def messageIndicatesSuccess : Option String → Bool
  | none => false
  | some m => strIncludes "sucesso" m

/-- The fallback `POST /task/{id}/cancel` leg of `cancelTask`: `true`
exactly on a 2xx response; a throw is caught by the surrounding
try/catch and yields `false`. -/
def cancelFallback : FetchOutcome → Bool
  | .thrown => false
  | .resp ok _ => ok

/-- Shallow embedding of `cancelTask(baseUrl, taskId)` from
progress-monitor.ts as a function of the two HTTP outcomes. On a 2xx
DELETE: an unparseable body counts as success; a parsed body counts as
success only when its `message` contains `sucesso`, otherwise the
POST fallback is attempted. On a non-2xx DELETE the POST fallback is
attempted. Any thrown error makes the whole call return `false`. -/
def cancelTask (deleteOutcome postOutcome : FetchOutcome) : Bool :=
  match deleteOutcome with
  | .thrown => false
  | .resp ok body =>
    if ok then
      match body with
      | none => true
      | some msg =>
        if messageIndicatesSuccess msg then true
        else cancelFallback postOutcome
    else cancelFallback postOutcome

/-- Whether a `FetchOutcome` is a 2xx response (`response.ok`). -/
def FetchOutcome.isOk : FetchOutcome → Bool
  | .thrown => false
  | .resp ok _ => ok

/-- Whether a `FetchOutcome` is a thrown network error. -/
def FetchOutcome.threw : FetchOutcome → Bool
  | .thrown => true
  | .resp _ _ => false

/-- C5 counterexample: the DELETE request succeeds with 2xx but its parsed
parsed body message (`"ok"`) lacks the `sucesso` marker, and the POST
fallback returns non-2xx — `cancelTask` then returns `false` even though
the primary request succeeded at the HTTP level, refuting "returns true
if either request succeeds (2xx)". -/
theorem cancelTask_2xx_delete_false :
    (FetchOutcome.resp true (some (some "ok"))).isOk = true ∧
    cancelTask (.resp true (some (some "ok"))) (.resp false none) = false := by
  constructor
  · rfl
  · decide

/-- Whether the DELETE leg alone is treated as success by `cancelTask`:
2xx and (body unparseable, or parsed message containing `sucesso`). -/
def deleteIndicatesSuccess : FetchOutcome → Bool
  | .resp true none => true
  | .resp true (some msg) => messageIndicatesSuccess msg
  | _ => false

/-- C5 amended: `cancelTask` never throws (it is total, every failure
reducing to `false`), attempts the legacy POST fallback exactly when the
DELETE leg did not indicate success, and returns `true` iff either the
DELETE indicated success (2xx with an unparseable body or with a message
containing `sucesso`) or, the DELETE having completed without throwing,
the POST fallback returned 2xx. A 2xx DELETE whose parsed message lacks
the marker is not by itself success. -/
theorem cancelTask_characterization (d p : FetchOutcome) :
    cancelTask d p
      = (deleteIndicatesSuccess d || (!d.threw && cancelFallback p)) := by
  match d with
  | .thrown => rfl
  | .resp ok body =>
    match ok, body with
    | true, none => rfl
    | true, some msg =>
      by_cases h : messageIndicatesSuccess msg = true
      · simp [cancelTask, deleteIndicatesSuccess, FetchOutcome.threw, h]
      · simp [cancelTask, deleteIndicatesSuccess, FetchOutcome.threw, h]
    | false, none => rfl
    | false, some msg => rfl

/-! ## Remote (n8n) response normalizer (`generateImage`, n8n.ts)

`generateImage` POSTs to the n8n webhook and normalizes the JSON response
body into `ProcessedImageData` or `null`. The body-shape handling is
embedded here as a pure function of the parsed body: JS falsy checks on
string fields (`undefined`/`null`/`""`) are modelled with `Option String`
and explicit truthiness helpers. The wall-clock `executionTime` is an
explicit parameter since it depends on timing, not on the body. Byte-level
base64 decoding is outside the model; the base64 branch records the raw
payload string. -/

/-- JS truthiness of an optional string field (`undefined`, `null` and
`""` are falsy). -/
def jsTruthyStr : Option String → Bool
  | none => false
  | some s => !s.isEmpty

/-- JS `v || d` on an optional string field. -/
def jsOrStr (v : Option String) (d : String) : String :=
  match v with
  | none => d
  | some s => if s.isEmpty then d else s

/-- JS `v || d` on an optional numeric field (`0` is falsy). -/
def jsOrNum (v : Option ℚ) (d : ℚ) : ℚ :=
  match v with
  | none => d
  | some x => if x = 0 then d else x

/-- JS `v || null` on the optional numeric seed field (`0` becomes
`null`). -/
def jsOrNull (v : Option ℚ) : Option ℚ :=
  match v with
  | none => none
  | some x => if x = 0 then none else some x

/-- One parsed n8n response object (the `ImageResponse` shape of n8n.ts,
with every field optional to model arbitrary JSON). -/
structure N8nRespObj where
  prompt : Option String
  image : Option String
  model : Option String
  provider : Option String
  encoding : Option String
  paramsSize : Option String
  paramsSteps : Option ℚ
  paramsCfg : Option ℚ
  paramsSeed : Option ℚ
  requestId : Option String
  metaReason : Option String
deriving DecidableEq

/-- A parsed n8n response body: a JSON array of objects, a single object,
or a falsy body (`null` etc., the `if (!responseData)` guard). -/
inductive N8nBody where
  | arrayBody (items : List N8nRespObj) : N8nBody
  | objectBody (o : N8nRespObj) : N8nBody
  | falsyBody : N8nBody
deriving DecidableEq

/-- Error taxonomy of the remote path (`ProcessedImageData.error.type` in
n8n.ts). -/
inductive N8nErrorType where
  | content_policy_violation : N8nErrorType
  | api_error : N8nErrorType
deriving DecidableEq

/-- The metadata record assembled by `generateImage` (n8n.ts). -/
structure N8nMetadata where
  model : String
  provider : String
  executionTime : ℚ
  size : String
  steps : ℚ
  cfg : ℚ
  seed : Option ℚ
  prompt : String
  requestId : String
deriving DecidableEq

/-- The `ProcessedImageData` record of n8n.ts. `imageBuffer` holds the raw
base64 payload that would be decoded (byte decoding is outside the
model). -/
structure N8nResult where
  imageBuffer : Option String
  imageUrl : Option String
  encoding : String
  metadata : N8nMetadata
  error : Option (N8nErrorType × String)
deriving DecidableEq

/-- The per-object part of `generateImage` (n8n.ts), after the body has
been unwrapped: the `meta.reason` policy-violation branch, the
required-field validation (`image`, `model`, `type` must be truthy, else
`null`), and the url/base64 dispatch. `payloadPrompt` is the prompt of the
outgoing request (`responseData.prompt || payload.prompt`), `execTime` the
measured execution time in seconds. -/
def normalizeN8nObj (payloadPrompt : String) (execTime : ℚ) (o : N8nRespObj) :
    Option N8nResult :=
  if jsTruthyStr o.metaReason then
    some
      { imageBuffer := none
        imageUrl := none
        encoding := "url"
        metadata :=
          { model := jsOrStr o.model "unknown"
            provider := jsOrStr o.provider "unknown"
            executionTime := execTime
            size := jsOrStr o.paramsSize "unknown"
            steps := jsOrNum o.paramsSteps 0
            cfg := jsOrNum o.paramsCfg 0
            seed := jsOrNull o.paramsSeed
            prompt := jsOrStr o.prompt payloadPrompt
            requestId := jsOrStr o.requestId "" }
        error := some (.content_policy_violation, jsOrStr o.metaReason "") }
  else if !jsTruthyStr o.image || !jsTruthyStr o.model || !jsTruthyStr o.encoding then
    none
  else
    some
      { imageBuffer := if jsOrStr o.encoding "" = "base64" then some (jsOrStr o.image "") else none
        imageUrl := if jsOrStr o.encoding "" = "url" then some (jsOrStr o.image "") else none
        encoding := jsOrStr o.encoding ""
        metadata :=
          { model := jsOrStr o.model ""
            provider := jsOrStr o.provider ""
            executionTime := execTime
            size := jsOrStr o.paramsSize ""
            steps := jsOrNum o.paramsSteps 0
            cfg := jsOrNum o.paramsCfg 0
            seed := jsOrNull o.paramsSeed
            prompt := jsOrStr o.prompt ""
            requestId := jsOrStr o.requestId "" }
        error := none }

/-- Shallow embedding of the body-shape handling of `generateImage`
(n8n.ts): a falsy body returns `null`; a non-empty array is unwrapped to
its first element; an empty array returns `null`; then the object is
normalized by `normalizeN8nObj`. -/
def normalizeN8nResponse (payloadPrompt : String) (execTime : ℚ) :
    N8nBody → Option N8nResult
  | .falsyBody => none
  | .arrayBody (o :: _) => normalizeN8nObj payloadPrompt execTime o
  | .arrayBody [] => none
  | .objectBody o => normalizeN8nObj payloadPrompt execTime o

/-- Whether a normalizer outcome is an `ApiError`-kind error result. -/
def isApiErrorResult : Option N8nResult → Bool
  | some r =>
    match r.error with
    | some (.api_error, _) => true
    | _ => false
  | none => false

/-- C6 counterexample: a zero-element array makes `generateImage` return
`null` (no result record at all), not an `ApiError`-kind error result;
the caller only sees a generic failure. -/
theorem normalizeN8n_empty_array_not_api_error :
    normalizeN8nResponse "a cat" 0 (.arrayBody []) = none ∧
    isApiErrorResult (normalizeN8nResponse "a cat" 0 (.arrayBody [])) = false := by
  exact ⟨rfl, rfl⟩

/-- C6 amended: normalizing a one-element array wrapping an object is
identical to normalizing the unwrapped object (for any prompt, execution
time and object — in fact any non-empty array is unwrapped to its first
element), while a zero-element array yields `null` rather than an
`ApiError`-kind error result. -/
theorem normalizeN8n_array_unwrap :
    (∀ (payloadPrompt : String) (execTime : ℚ) (o : N8nRespObj),
      normalizeN8nResponse payloadPrompt execTime (.arrayBody [o])
        = normalizeN8nResponse payloadPrompt execTime (.objectBody o)) ∧
    (∀ (payloadPrompt : String) (execTime : ℚ) (o : N8nRespObj) (rest : List N8nRespObj),
      normalizeN8nResponse payloadPrompt execTime (.arrayBody (o :: rest))
        = normalizeN8nResponse payloadPrompt execTime (.objectBody o)) ∧
    (∀ (payloadPrompt : String) (execTime : ℚ),
      normalizeN8nResponse payloadPrompt execTime (.arrayBody []) = none) := by
  exact ⟨fun _ _ _ => rfl, fun _ _ _ _ => rfl, fun _ _ => rfl⟩

/-! ## Progress-percentage rendering (imagine-pro.ts and
command-progress-handler.ts)

Raw `TaskProgress` events are forwarded unmodified by the monitor; each
progress callback of each command turns the `progress` field into the
percentage shown to the user. The `/imagine-pro` callback
(imagine-pro.ts) applies the 0–1 vs 0–100 heuristic and a `Math.min`
clamp; the shared handler used by `/imagine`
(`CommandProgressHandler.buildProcessingStatus`,
command-progress-handler.ts) only rounds. -/

/-- JavaScript `Math.round` on a finite number: floor of `q + 1/2`. -/
def jsRound (q : ℚ) : ℤ := ⌊q + 1/2⌋

lemma jsRound_eq (q : ℚ) (z : ℤ) (h1 : (z : ℚ) ≤ q + 1/2) (h2 : q + 1/2 < z + 1) :
    jsRound q = z := by
  rw [jsRound, Int.floor_eq_iff]
  · exact ⟨h1, by linarith⟩

/-- The percentage computed by the `/imagine-pro` progress callback
(imagine-pro.ts): `progress > 1 ? Math.round(progress) :
Math.round(progress * 100)`, then `Math.min(·, 100)`. -/
def proProgressPercentage (p : ℚ) : ℤ :=
  let pct := if p > 1 then jsRound p else jsRound (p * 100)
  min pct 100

/-- The percentage computed by
`CommandProgressHandler.buildProcessingStatus`
(command-progress-handler.ts), the callback `/imagine` installs:
`Math.round(progress.progress || 0)` — no clamp, no 0–1 heuristic. -/
def handlerProcessingPercentage (p : ℚ) : ℤ :=
  jsRound (jsOrNum (some p) 0)

/-- C7 counterexample: the progress sink that `/imagine` installs
(`CommandProgressHandler.buildProcessingStatus`) renders an out-of-range
`progress = 150` event as 150 %, not 100 % — no clamping happens on that
path before the value reaches the user-facing embed. -/
theorem handlerPercentage_not_clamped :
    handlerProcessingPercentage 150 = 150 ∧
    ¬(handlerProcessingPercentage 150 ≤ 100) := by
  have h : handlerProcessingPercentage 150 = 150 := by
    show jsRound (jsOrNum (some 150) 0) = 150
    rw [show jsOrNum (some 150) 0 = 150 by norm_num [jsOrNum]]
    exact jsRound_eq 150 150 (by norm_num) (by norm_num)
  exact ⟨h, by rw [h]; norm_num⟩

/-- C7 amended: the `/imagine-pro` progress callback does clamp and
normalize — its percentage never exceeds 100, `progress = 150` is clamped
to exactly 100, and a fractional 0–1 value is rendered as
`Math.round(value × 100)`, staying within 0–100; but the shared handler
callback used by `/imagine` performs no such clamping (see the
counterexample), so the guarantee does not hold for every sink. -/
theorem proProgressPercentage_clamped :
    (∀ p : ℚ, proProgressPercentage p ≤ 100) ∧
    proProgressPercentage 150 = 100 ∧
    (∀ p : ℚ, 0 ≤ p → p ≤ 1 →
      proProgressPercentage p = jsRound (p * 100) ∧
      0 ≤ proProgressPercentage p ∧ proProgressPercentage p ≤ 100) := by
  refine ⟨fun p => min_le_right _ _, ?_, ?_⟩
  · show min (if (150:ℚ) > 1 then jsRound 150 else jsRound (150 * 100)) 100 = 100
    rw [if_pos (by norm_num : (150:ℚ) > 1),
      jsRound_eq 150 150 (by norm_num) (by norm_num)]
    norm_num
  · intro p h0 h1
    have hnot : ¬(p > 1) := not_lt.mpr h1
    have heq : proProgressPercentage p = jsRound (p * 100) := by
      show min (if p > 1 then jsRound p else jsRound (p * 100)) 100 = jsRound (p * 100)
      rw [if_neg hnot]
      refine min_eq_left ?_
      have : p * 100 + 1/2 < (101 : ℚ) := by nlinarith
      have hlt : jsRound (p * 100) < 101 := by
        rw [jsRound]
        exact Int.floor_lt.mpr (by push_cast; linarith)
      omega
    refine ⟨heq, ?_, ?_⟩
    · rw [heq, jsRound]
      refine Int.le_floor.mpr ?_
      push_cast
      nlinarith
    · rw [heq, jsRound]
      have : p * 100 + 1/2 < (101 : ℚ) := by nlinarith
      have hlt : ⌊p * 100 + 1/2⌋ < (101 : ℤ) := Int.floor_lt.mpr (by push_cast; linarith)
      omega

/-- Witness for `proProgressPercentage_clamped` at the fractional value
`progress = 0.5`. -/
theorem proProgressPercentage_clamped_witness :
    proProgressPercentage (1/2) = jsRound (1/2 * 100) ∧
    0 ≤ proProgressPercentage (1/2) ∧ proProgressPercentage (1/2) ≤ 100 :=
  proProgressPercentage_clamped.2.2 (1/2) (by norm_num) (by norm_num)

/-! ## Progress stream monitor (`TaskProgressMonitor`, progress-monitor.ts)

The monitor holds an `isCompleted` flag and a bounded reconnect counter.
Its `onmessage` handler forwards each parsed event to the callback only
when `isCompleted` is still false, then marks the monitor completed on a
terminal status (`handleTaskCompletion`); `onclose` schedules a reconnect
only for close codes other than 1000 while not completed and while fewer
than `maxReconnectAttempts = 3` attempts were made; the scheduled
reconnect re-checks `isCompleted` before connecting; `stop()` and
`forceStop()` set `isCompleted` and close the socket. -/

/-- The five task statuses of `TaskProgress` (types.ts). -/
inductive TaskStatus where
  | pending | processing | completed | failed | cancelled
deriving DecidableEq

/-- the test `[completed, failed, cancelled].includes(data.status)` — the
terminal-status test of `handleTaskCompletion` (progress-monitor.ts). -/
def isTerminalStatus : TaskStatus → Bool
  | .completed => true
  | .failed => true
  | .cancelled => true
  | .pending => false
  | .processing => false

/-- A parsed inbound progress message (the fields of `TaskProgress` that
drive forwarding; the full payload is passed to the callback verbatim). -/
structure ProgressMsg where
  status : TaskStatus
  progress : ℚ
deriving DecidableEq

/-- The `onmessage` forwarding discipline of `TaskProgressMonitor.connect`
over a sequence of inbound events, starting from a given `isCompleted`
flag: an event is passed to the callback only when the flag is still
false, and `handleTaskCompletion` then sets the flag on a terminal
status. Returns the list of events actually delivered to the sink. -/
def monitorEmit : Bool → List ProgressMsg → List ProgressMsg
  | _, [] => []
  | c, e :: es =>
    (if c then [] else [e]) ++ monitorEmit (c || isTerminalStatus e.status) es

lemma monitorEmit_completed (es : List ProgressMsg) : monitorEmit true es = [] := by
  induction es with
  | nil => rfl
  | cons e es ih => simp [monitorEmit, ih]

lemma monitorEmit_no_terminal (es : List ProgressMsg)
    (h : ∀ e ∈ es, isTerminalStatus e.status = false) :
    monitorEmit false es = es := by
  induction es with
  | nil => rfl
  | cons e es ih =>
    have he := h e (List.mem_cons_self e es)
    simp only [monitorEmit, he, Bool.false_or, if_neg Bool.false_ne_true]
    rw [ih fun x hx => h x (List.mem_cons_of_mem e hx)]
    rfl

/-- C3: over any sequence of inbound events for one job, the monitor
invokes the sink for an event only while no terminal event has been
observed; consequently (i) once completed nothing is ever delivered,
(ii) a terminal-free stream is delivered in full and in order, (iii) the
first terminal event is delivered and nothing after it is, so the
terminal event reaches the sink at most once, and (iv) at most one
terminal event ever appears among the delivered events. -/
theorem monitorEmit_spec :
    (∀ es : List ProgressMsg, monitorEmit true es = []) ∧
    (∀ es : List ProgressMsg,
      (∀ e ∈ es, isTerminalStatus e.status = false) → monitorEmit false es = es) ∧
    (∀ (xs : List ProgressMsg) (t : ProgressMsg) (ys : List ProgressMsg),
      isTerminalStatus t.status = true →
      (∀ e ∈ xs, isTerminalStatus e.status = false) →
      monitorEmit false (xs ++ t :: ys) = xs ++ [t]) ∧
    (∀ es : List ProgressMsg,
      (monitorEmit false es).countP (fun e => isTerminalStatus e.status) ≤ 1) := by
  refine ⟨monitorEmit_completed, monitorEmit_no_terminal, ?_, ?_⟩
  · intro xs t ys ht hxs
    induction xs with
    | nil =>
      simp only [List.nil_append, monitorEmit, if_neg Bool.false_ne_true, ht,
        Bool.false_or, monitorEmit_completed]
      rfl
    | cons x xs ih =>
      have hx := hxs x (List.mem_cons_self x xs)
      simp only [List.cons_append, monitorEmit, hx, Bool.false_or,
        if_neg Bool.false_ne_true, List.append_eq]
      rw [ih fun e he => hxs e (List.mem_cons_of_mem x he)]
      rfl
  · intro es
    induction es with
    | nil => simp [monitorEmit]
    | cons e es ih =>
      by_cases he : isTerminalStatus e.status = true
      · simp [monitorEmit, he, monitorEmit_completed, List.countP_cons]
      · rw [Bool.not_eq_true] at he
        simp only [monitorEmit, if_neg Bool.false_ne_true, he, Bool.false_or,
          List.singleton_append, List.countP_cons, he]
        simpa using ih

/-- Witness for `monitorEmit_spec`: the stream
`processing 30 %, processing 70 %, completed 100 %, processing 99 %`
delivers exactly the first three events — the post-terminal event is
suppressed. -/
theorem monitorEmit_spec_witness :
    monitorEmit false
        [⟨.processing, 30⟩, ⟨.processing, 70⟩, ⟨.completed, 100⟩, ⟨.processing, 99⟩]
      = [⟨.processing, 30⟩, ⟨.processing, 70⟩, ⟨.completed, 100⟩] := by
  have h := monitorEmit_spec.2.2.1 [⟨.processing, 30⟩, ⟨.processing, 70⟩]
    ⟨.completed, 100⟩ [⟨.processing, 99⟩] (by decide) (by decide)
  simpa using h

/-- Mutable state of one `TaskProgressMonitor` instance:
`isCompleted` and `reconnectAttempts` (progress-monitor.ts). -/
structure MonitorState where
  isCompleted : Bool
  reconnectAttempts : Nat
deriving DecidableEq

/-- Constant `maxReconnectAttempts = 3` (progress-monitor.ts). -/
def maxReconnectAttempts : Nat := 3

/-- External events acting on a monitor instance: a successful handshake
(`onopen`, resets the attempt counter), an inbound parsed message
(`onmessage`), a connection close with its code (`onclose`), the firing
of a previously scheduled reconnect timer (which re-checks
`isCompleted`), and the `stop()` / `forceStop()` calls. -/
inductive MonitorEvent where
  | opened : MonitorEvent
  | message (m : ProgressMsg) : MonitorEvent
  | closed (code : Nat) : MonitorEvent
  | reconnectTimerFires : MonitorEvent
  | stopCall : MonitorEvent
  | forceStopCall : MonitorEvent
deriving DecidableEq

/-- Observable effects of one event: whether the progress callback was
invoked, whether a reconnect was scheduled, and whether a scheduled
reconnect actually re-connected. -/
structure MonitorOutput where
  callbackInvoked : Bool
  reconnectScheduled : Bool
  reconnected : Bool
deriving DecidableEq

/-- The silent output (no callback, no reconnect activity). -/
def quietOutput : MonitorOutput :=
  { callbackInvoked := false, reconnectScheduled := false, reconnected := false }

/-- One step of the `TaskProgressMonitor` state machine
(progress-monitor.ts): `onopen` resets `reconnectAttempts`; `onmessage`
invokes the callback iff `isCompleted` is false and then
`handleTaskCompletion` sets `isCompleted` on a terminal status;
`onclose` increments the attempt counter and schedules a reconnect only
when `code !== 1000 && !isCompleted && reconnectAttempts <
maxReconnectAttempts`; a firing reconnect timer connects only when
`!isCompleted`; `stop()` and `forceStop()` set `isCompleted`. -/
def monitorStep (s : MonitorState) : MonitorEvent → MonitorState × MonitorOutput
  | .opened => ({ s with reconnectAttempts := 0 }, quietOutput)
  | .message m =>
    ({ s with isCompleted := s.isCompleted || isTerminalStatus m.status },
      { quietOutput with callbackInvoked := !s.isCompleted })
  | .closed code =>
    if code ≠ 1000 ∧ s.isCompleted = false ∧ s.reconnectAttempts < maxReconnectAttempts then
      ({ s with reconnectAttempts := s.reconnectAttempts + 1 },
        { quietOutput with reconnectScheduled := true })
    else (s, quietOutput)
  | .reconnectTimerFires => (s, { quietOutput with reconnected := !s.isCompleted })
  | .stopCall => ({ s with isCompleted := true }, quietOutput)
  | .forceStopCall => ({ s with isCompleted := true }, quietOutput)

/-- Run the monitor over a list of events, collecting outputs. -/
def monitorRun (s : MonitorState) : List MonitorEvent → MonitorState × List MonitorOutput
  | [] => (s, [])
  | e :: es =>
    let (s₁, o) := monitorStep s e
    let (s₂, os) := monitorRun s₁ es
    (s₂, o :: os)

lemma monitorStep_quiescent (s : MonitorState) (e : MonitorEvent)
    (h : s.isCompleted = true) :
    (monitorStep s e).1.isCompleted = true ∧ (monitorStep s e).2 = quietOutput := by
  cases e with
  | opened => exact ⟨h, rfl⟩
  | message m => simp [monitorStep, quietOutput, h]
  | closed code =>
    rw [monitorStep, if_neg (by simp [h])]
    exact ⟨h, rfl⟩
  | reconnectTimerFires => simp [monitorStep, quietOutput, h]
  | stopCall => exact ⟨rfl, rfl⟩
  | forceStopCall => exact ⟨rfl, rfl⟩

lemma monitorRun_quiescent (s : MonitorState) (evs : List MonitorEvent)
    (h : s.isCompleted = true) :
    (monitorRun s evs).1.isCompleted = true ∧
    (monitorRun s evs).2.all (fun o => o == quietOutput) = true := by
  induction evs generalizing s with
  | nil => exact ⟨h, rfl⟩
  | cons e es ih =>
    have hstep := monitorStep_quiescent s e h
    have hrest := ih (monitorStep s e).1 hstep.1
    simp only [monitorRun, List.all_cons]
    exact ⟨hrest.1, by simp [hstep.2, hrest.2]⟩

/-- C10: after `stop()` (and likewise after `forceStop()`), the monitor
is permanently quiescent: for any subsequent sequence of events — opens,
inbound messages, closes with any code, firing reconnect timers, further
stop calls — the `isCompleted` flag stays set, no reconnect is scheduled
or performed (regardless of close code or remaining reconnect budget),
and the progress callback is never invoked again. -/
theorem monitor_stop_quiescent (s : MonitorState) (evs : List MonitorEvent) :
    ((monitorRun (monitorStep s .stopCall).1 evs).1.isCompleted = true ∧
      (monitorRun (monitorStep s .stopCall).1 evs).2.all
        (fun o => o == quietOutput) = true) ∧
    ((monitorRun (monitorStep s .forceStopCall).1 evs).1.isCompleted = true ∧
      (monitorRun (monitorStep s .forceStopCall).1 evs).2.all
        (fun o => o == quietOutput) = true) :=
  ⟨monitorRun_quiescent _ evs rfl, monitorRun_quiescent _ evs rfl⟩

/-! ## Pending-wait table (`taskResolvers`, local-ai.ts)

`waitForCompletion` registers, per task id, a record holding the
resolve/reject callbacks of the promise and the handle of its fallback
wait-timeout timer (`taskResolvers.set`). `resolveTask` / `rejectTask`
(called by the WebSocket monitor) look the entry up, clear its timer,
delete it, and only then invoke the stored callback; with no entry they
do nothing. The wait-timeout callback deletes the entry and rejects the
promise; it can only fire while the entry is still present, since every
removal path first clears the timer. The table is modelled as an
association list `task id → timer handle`; the invoked callback is
reported in the output of the operation. -/

/-- Which stored callback a table operation invoked. -/
inductive WaitCallback where
  | resolved : WaitCallback
  | rejected : WaitCallback
  | timeoutRejected : WaitCallback
deriving DecidableEq

/-- Result of one operation on the pending-wait table: the table
afterwards, the timer handle that was cleared (`clearTimeout`), and the
callback that was invoked. -/
structure WaitTableOp where
  table : List (String × Nat)
  clearedTimer : Option Nat
  callback : Option WaitCallback
deriving DecidableEq

/-- Lookup `taskResolvers.get(taskId)` — the timer handle of the entry for a
task id, if present. -/
def lookupWait (t : List (String × Nat)) (id : String) : Option Nat :=
  match t.find? (fun p => p.1 == id) with
  | some p => some p.2
  | none => none

/-- Removal `taskResolvers.delete(taskId)` — remove the entry for a task id. -/
def eraseWait (t : List (String × Nat)) (id : String) : List (String × Nat) :=
  t.filter (fun p => p.1 != id)

/-- Registration `taskResolvers.set(taskId, ...)` of a pending wait in
`waitForCompletion` (local-ai.ts); a map `set` overwrites. -/
def registerWait (t : List (String × Nat)) (id : String) (timer : Nat) :
    List (String × Nat) :=
  (id, timer) :: eraseWait t id

/-- Operation `resolveTask(taskId, status)` (local-ai.ts): if an entry exists,
clear its timer, delete it, then invoke its resolve callback; otherwise
do nothing. -/
def resolveTask (t : List (String × Nat)) (id : String) : WaitTableOp :=
  match lookupWait t id with
  | some timer =>
    { table := eraseWait t id, clearedTimer := some timer, callback := some .resolved }
  | none => { table := t, clearedTimer := none, callback := none }

/-- Operation `rejectTask(taskId, error)` (local-ai.ts): same consumption protocol
with the reject callback. -/
def rejectTask (t : List (String × Nat)) (id : String) : WaitTableOp :=
  match lookupWait t id with
  | some timer =>
    { table := eraseWait t id, clearedTimer := some timer, callback := some .rejected }
  | none => { table := t, clearedTimer := none, callback := none }

/-- The wait-timeout callback registered by `waitForCompletion`
(local-ai.ts): `taskResolvers.delete(taskId)` then reject. It can only
fire while the timer of the entry is live, i.e. while the entry is present. -/
def waitTimeoutFires (t : List (String × Nat)) (id : String) : WaitTableOp :=
  { table := eraseWait t id, clearedTimer := none, callback := some .timeoutRejected }

lemma lookupWait_erase (t : List (String × Nat)) (id : String) :
    lookupWait (eraseWait t id) id = none := by
  rw [lookupWait, List.find?_eq_none.mpr]
  intro p hp
  have := (List.mem_filter.mp hp).2
  simpa [bne] using this

/-- C4: the pending-wait entry for a job id is consumed exactly once.
(i) When an entry exists, `resolveTask` (resp. `rejectTask`) clears the
timer of the entry, removes the entry, and invokes the stored callback, and
the id is afterwards absent; (ii) on an id with no entry both are
no-ops that change nothing and invoke nothing; (iii) consequently, after
whichever of resolve, reject or wait-timeout fires first, any later
`resolveTask`/`rejectTask` call for the same id leaves the table
untouched, clears no timer and invokes no callback. -/
theorem pendingWait_consumed_once :
    (∀ (t : List (String × Nat)) (id : String) (timer : Nat),
      lookupWait t id = some timer →
      resolveTask t id
          = { table := eraseWait t id, clearedTimer := some timer,
              callback := some .resolved } ∧
        rejectTask t id
          = { table := eraseWait t id, clearedTimer := some timer,
              callback := some .rejected } ∧
        lookupWait (eraseWait t id) id = none) ∧
    (∀ (t : List (String × Nat)) (id : String),
      lookupWait t id = none →
      resolveTask t id = { table := t, clearedTimer := none, callback := none } ∧
        rejectTask t id = { table := t, clearedTimer := none, callback := none }) ∧
    (∀ (t : List (String × Nat)) (id : String),
      resolveTask (resolveTask t id).table id
          = { table := (resolveTask t id).table, clearedTimer := none, callback := none } ∧
        rejectTask (resolveTask t id).table id
          = { table := (resolveTask t id).table, clearedTimer := none, callback := none } ∧
        resolveTask (rejectTask t id).table id
          = { table := (rejectTask t id).table, clearedTimer := none, callback := none } ∧
        resolveTask (waitTimeoutFires t id).table id
          = { table := (waitTimeoutFires t id).table, clearedTimer := none,
              callback := none } ∧
        rejectTask (waitTimeoutFires t id).table id
          = { table := (waitTimeoutFires t id).table, clearedTimer := none,
              callback := none }) := by
  have hres_none : ∀ (t : List (String × Nat)) (id : String),
      lookupWait t id = none →
      resolveTask t id = { table := t, clearedTimer := none, callback := none } := by
    intro t id h
    rw [resolveTask, h]
  have hrej_none : ∀ (t : List (String × Nat)) (id : String),
      lookupWait t id = none →
      rejectTask t id = { table := t, clearedTimer := none, callback := none } := by
    intro t id h
    rw [rejectTask, h]
  refine ⟨?_, fun t id h => ⟨hres_none t id h, hrej_none t id h⟩, ?_⟩
  · intro t id timer h
    exact ⟨by rw [resolveTask, h], by rw [rejectTask, h], lookupWait_erase t id⟩
  · intro t id
    have habs : ∀ t' : List (String × Nat), lookupWait t' id = none →
        resolveTask t' id = { table := t', clearedTimer := none, callback := none } ∧
        rejectTask t' id = { table := t', clearedTimer := none, callback := none } :=
      fun t' h => ⟨hres_none t' id h, hrej_none t' id h⟩
    have hres : lookupWait (resolveTask t id).table id = none ∨ (resolveTask t id).table = t := by
      rw [resolveTask]
      cases h : lookupWait t id with
      | some timer => exact Or.inl (lookupWait_erase t id)
      | none => exact Or.inr rfl
    have hrej : lookupWait (rejectTask t id).table id = none ∨ (rejectTask t id).table = t := by
      rw [rejectTask]
      cases h : lookupWait t id with
      | some timer => exact Or.inl (lookupWait_erase t id)
      | none => exact Or.inr rfl
    rcases hres with hres | hres
    case _ =>
      rcases hrej with hrej | hrej
      case _ =>
        exact ⟨(habs _ hres).1, (habs _ hres).2, (habs _ hrej).1,
          (habs _ (lookupWait_erase t id)).1, (habs _ (lookupWait_erase t id)).2⟩
      case _ =>
        -- rejectTask was a no-op, so the id was already absent
        have hnone : lookupWait t id = none := by
          rw [rejectTask] at hrej
          cases h : lookupWait t id with
          | some timer =>
            rw [h] at hrej
            exact absurd (congrArg (lookupWait · id) hrej)
              (by simp [lookupWait_erase t id, h])
          | none => rfl
        exact ⟨(habs _ hres).1, (habs _ hres).2, by rw [hrej]; exact (habs t hnone).1,
          (habs _ (lookupWait_erase t id)).1, (habs _ (lookupWait_erase t id)).2⟩
    case _ =>
      -- resolveTask was a no-op, so the id was already absent
      have hnone : lookupWait t id = none := by
        rw [resolveTask] at hres
        cases h : lookupWait t id with
        | some timer =>
          rw [h] at hres
          exact absurd (congrArg (lookupWait · id) hres)
            (by simp [lookupWait_erase t id, h])
        | none => rfl
      have hrejt : (rejectTask t id).table = t := by
        rw [rejectTask, hnone]
      exact ⟨by rw [hres]; exact (habs t hnone).1, by rw [hres]; exact (habs t hnone).2,
        by rw [hrejt]; exact (habs t hnone).1,
        (habs _ (lookupWait_erase t id)).1, (habs _ (lookupWait_erase t id)).2⟩

/-- Witness for `pendingWait_consumed_once`: a registered wait for
`"task1"` with timer handle 7 is consumed by `resolveTask`, which clears
timer 7, removes the entry and fires the resolve callback. -/
theorem pendingWait_consumed_once_witness :
    resolveTask (registerWait [] "task1" 7) "task1"
      = { table := eraseWait (registerWait [] "task1" 7) "task1",
          clearedTimer := some 7, callback := some .resolved } :=
  (pendingWait_consumed_once.1 (registerWait [] "task1" 7) "task1" 7 (by decide)).1

/-! ## Local generation outcome and backend routing
(local-ai.ts, imagine-pro.ts)

`generateImageLocalWithProgressAndMonitor` (local-ai.ts) submits the job
(`submitGeneration` returns a task id or `null`), awaits completion, and
never throws: on any error its catch block classifies the thrown message
into `cancelled` / `timeout` / `processing_failed` / `api_error` by
substring tests and returns a data record carrying that error and no
image URL. The `/imagine-pro` command (imagine-pro.ts) then decides
whether to invoke the remote n8n backend: any local-path outcome other
than user cancellation, a `cancelled` error result, or a result with an
image URL makes it throw `Falha na geração local`, which its catch
turns into the n8n fallback call. -/

/-- The local-path error taxonomy
(`ProcessedLocalData.error.type`, local-ai.ts). -/
inductive LocalErrorType where
  | timeout | api_error | processing_failed | cancelled
deriving DecidableEq

/-- The error classification of the catch block of
`generateImageLocalWithProgressAndMonitor` (local-ai.ts): substring tests
on the thrown message, in source order. -/
def classifyLocalError (msg : String) : LocalErrorType :=
  if strIncludes "cancelada pelo usuário" msg then .cancelled
  else if strIncludes "timeout" msg || strIncludes "Timeout" msg then .timeout
  else if strIncludes "falhou" msg || strIncludes "failed" msg then .processing_failed
  else .api_error

/-- The slice of `ProcessedLocalData` (local-ai.ts) that drives the
routing decision: the image URL (set only on success), the request id
(the task id on success, empty on error), and the error kind if any.
Clock-dependent metadata (`executionTime`) and the downloaded buffer are
omitted. -/
structure LocalData where
  imageUrl : Option String
  requestId : String
  errorType : Option LocalErrorType
deriving DecidableEq

/-- Shallow embedding of the outcome of
`generateImageLocalWithProgressAndMonitor` (local-ai.ts):
`taskId?` is the submission result (`null` means rejected — the function
then returns `data: null`); `wait` is the outcome of `waitForCompletion`,
either the `output_paths` of the final completed status or the thrown error
message (wait-timeout throws
`Timeout aguardando WebSocket para tarefa` + id). Empty output paths
throw `Nenhuma imagem gerada`; success builds
`{LOCAL_AI_URL}/image/{taskId}/1`; every thrown message is classified by
`classifyLocalError` into an error record with no image URL. -/
def localGenerate (localUrl : String) (taskId? : Option String)
    (wait : Except String (List String)) : Option LocalData :=
  match taskId? with
  | none => none
  | some tid =>
    match wait with
    | .ok paths =>
      if paths.isEmpty then
        some { imageUrl := none, requestId := ""
               errorType := some (classifyLocalError "Nenhuma imagem gerada") }
      else
        some { imageUrl := some (localUrl ++ "/image/" ++ tid ++ "/1")
               requestId := tid, errorType := none }
    | .error msg =>
      some { imageUrl := none, requestId := ""
             errorType := some (classifyLocalError msg) }

/-- The backend-routing decision of `/imagine-pro` (imagine-pro.ts):
whether the n8n remote call is reached, as a function of the health-probe
result, the user-cancellation flag, and the local outcome. With the
probe negative the remote path is taken directly; with the probe positive
the local path runs, and the command reaches the n8n fallback exactly
when the collector did not mark cancellation, the result does not carry a
`cancelled` error, and it has no image URL (including `result = null`
after a rejected submission), since `!result?.imageUrl` then throws into
the fallback catch. -/
def imagineProInvokesRemote (localOnline userCancelled : Bool)
    (result : Option LocalData) : Bool :=
  if !localOnline then true
  else if userCancelled then false
  else
    match result with
    | some d =>
      if d.errorType = some .cancelled then false
      else if d.imageUrl = none then true
      else false
    | none => true

/-- C2 counterexample: the local backend accepted the job (submission
returned task id `"task1"`), the wait then timed out
(`waitForCompletion` threw its wait-timeout message), and `/imagine-pro`
nevertheless invokes the remote n8n backend as a fallback — refuting
"the remote backend is never invoked as a fallback after local
acceptance". -/
theorem imaginePro_post_acceptance_fallback :
    imagineProInvokesRemote true false
        (localGenerate "http://local-ai" (some "task1")
          (.error "Timeout aguardando WebSocket para tarefa task1")) = true ∧
    localGenerate "http://local-ai" (some "task1")
        (.error "Timeout aguardando WebSocket para tarefa task1")
      = some { imageUrl := none, requestId := "", errorType := some .timeout } := by
  constructor
  · decide
  · decide

/-- C2 amended: once routed to the local path, `/imagine-pro` falls back
to the remote backend not only on pre-submission failures but on any
local failure other than cancellation: with the health probe negative
the remote path is always taken; a rejected submission (`result = null`)
reaches the fallback; a successful local generation never does; and in
general, with the probe positive the remote call is reached exactly when
the user did not cancel, the result carries no `cancelled` error, and it
has no image URL — so post-acceptance runtime failures and timeouts also
trigger the fallback. -/
theorem imaginePro_routing :
    (∀ (c : Bool) (r : Option LocalData), imagineProInvokesRemote false c r = true) ∧
    imagineProInvokesRemote true false none = true ∧
    (∀ (url tid : String) (paths : List String), paths ≠ [] →
      imagineProInvokesRemote true false (localGenerate url (some tid) (.ok paths))
        = false) ∧
    (∀ (c : Bool) (d : LocalData),
      imagineProInvokesRemote true c (some d) = true
        ↔ c = false ∧ d.errorType ≠ some .cancelled ∧ d.imageUrl = none) := by
  refine ⟨fun c r => rfl, rfl, ?_, ?_⟩
  · intro url tid paths h
    match paths with
    | [] => exact absurd rfl h
    | p :: ps => rfl
  · intro c d
    cases c with
    | true => simp [imagineProInvokesRemote]
    | false =>
      by_cases hc : d.errorType = some .cancelled
      · simp [imagineProInvokesRemote, hc]
      · by_cases hu : d.imageUrl = none
        · simp [imagineProInvokesRemote, hc, hu]
        · simp [imagineProInvokesRemote, hc, hu]

/-- Witness for `imaginePro_routing`: a successful local generation with
one output path does not reach the remote backend. -/
theorem imaginePro_routing_witness :
    imagineProInvokesRemote true false
        (localGenerate "http://local-ai" (some "task9") (.ok ["img0.png"])) = false :=
  imaginePro_routing.2.2.1 "http://local-ai" "task9" ["img0.png"] (by simp)

end StellaBot
